import Mathlib

/-!
# Student management MCP server: dispatcher model

A shallow embedding of `main.go`: the request and response envelopes, the
dynamically typed values carried by `interface{}` fields, the method and tool
dispatch, and the two tool handlers over the fixed record list.
-/

namespace StudentMCP

/-! ## Dynamic values -/

/-- A value held in a Go `interface{}` after JSON decoding: `nil`, `bool`,
`float64` (kept as its 64-bit pattern, which no handler inspects), `string`,
`[]interface{}` and `map[string]interface{}` (an association list read by
first match). The same type carries the values the handlers build for
`Result`, structs and typed slices standing as the objects and sequences
their JSON tags describe. -/
inductive Value where
  | null : Value
  | bool (b : Bool) : Value
  | num (bits : Nat) : Value
  | str (s : String) : Value
  | arr (xs : List Value) : Value
  | obj (kvs : List (String × Value)) : Value

/-- A Go `map[string]interface{}` variable: `none` is the nil map. -/
abbrev GoMap := Option (List (String × Value))

/-- The entry of a map under a key, if there is one; a nil map has none. -/
def GoMap.find? (m : GoMap) (k : String) : Option Value :=
  match m with
  | none => none
  | some kvs => kvs.lookup k

/-- The index expression `m[k]`: the zero value `nil` when the key has no
entry, also on the nil map. -/
def GoMap.index (m : GoMap) (k : String) : Value :=
  (GoMap.find? m k).getD Value.null

/-- The two-result assertion `v.(string)`: the string and `true`, or the zero
value `""` and `false`. -/
def Value.assertString (v : Value) : String × Bool :=
  match v with
  | Value.str s => (s, true)
  | _ => ("", false)

/-- The two-result assertion `v.(map[string]interface{})`: the map and `true`,
or the nil map and `false`. -/
def Value.assertMap (v : Value) : GoMap × Bool :=
  match v with
  | Value.obj kvs => (some kvs, true)
  | _ => (none, false)

/-! ## Protocol structures -/

structure MCPRequest where
  JSONRPC : String
  ID : Value
  Method : String
  Params : Value

structure MCPError where
  Code : Int
  Message : String

/-- The response envelope: `Result` is `Value.null` when the Go field is nil,
`Error` is `none` when the Go pointer is nil. -/
structure MCPResponse where
  JSONRPC : String
  ID : Value
  Result : Value
  Error : Option MCPError

structure Tool where
  Name : String
  Description : String
  InputSchema : Value

structure Student where
  ID : String
  Name : String
  Age : Int
  Grade : String
  Section : String

/-- The mock student data of `main.go`. -/
def students : List Student :=
  [ { ID := "1", Name := "张三", Age := 18, Grade := "高三", Section := "A班" },
    { ID := "2", Name := "李四", Age := 17, Grade := "高二", Section := "B班" },
    { ID := "3", Name := "王五", Age := 16, Grade := "高一", Section := "C班" },
    { ID := "4", Name := "赵六", Age := 17, Grade := "高二", Section := "A班" },
    { ID := "5", Name := "孙七", Age := 16, Grade := "高一", Section := "B班" } ]

/-! ## Formatting -/

/-- The verb `%d` of `fmt.Sprintf` on an `int`. -/
def fmtInt (n : Int) : String := toString n

/-- One iteration of the loop of `formatStudentList`: the line of a record. -/
def studentLine (student : Student) : String :=
  "ID: " ++ student.ID ++ ", 姓名: " ++ student.Name ++ ", 年龄: " ++ fmtInt student.Age
    ++ ", 年级: " ++ student.Grade ++ ", 班级: " ++ student.Section ++ "\n"

def formatStudentList (students : List Student) : String :=
  students.foldl (fun result student => result ++ studentLine student) ""

def formatStudentInfo (student : Student) : String :=
  "学生详细信息:\nID: " ++ student.ID ++ "\n姓名: " ++ student.Name ++ "\n年龄: "
    ++ fmtInt student.Age ++ "\n年级: " ++ student.Grade ++ "\n班级: " ++ student.Section

/-! ## Handlers -/

def handleInitialize (req : MCPRequest) : MCPResponse :=
  { JSONRPC := "2.0"
    ID := req.ID
    Result := Value.obj
      [ ("protocolVersion", Value.str "2024-11-05"),
        ("capabilities", Value.obj [("tools", Value.obj [])]),
        ("serverInfo", Value.obj
          [ ("name", Value.str "student-management-server"),
            ("version", Value.str "1.0.0") ]) ]
    Error := none }

/-- The local `tools` of `handleToolsList`. -/
def tools : List Tool :=
  [ { Name := "get_student_list"
      Description := "获取班级所有学生的列表"
      InputSchema := Value.obj
        [ ("type", Value.str "object"),
          ("properties", Value.obj
            [ ("section", Value.obj
                [ ("type", Value.str "string"),
                  ("description",
                    Value.str "班级名称，可选参数。如果提供，则只返回该班级的学生") ]) ]) ] },
    { Name := "get_student_info"
      Description := "根据学生ID获取单个学生的详细信息"
      InputSchema := Value.obj
        [ ("type", Value.str "object"),
          ("properties", Value.obj
            [ ("student_id", Value.obj
                [ ("type", Value.str "string"),
                  ("description", Value.str "学生的唯一标识ID") ]) ]),
          ("required", Value.arr [Value.str "student_id"]) ] } ]

/-- A `Tool` as the object its JSON tags describe. -/
def Tool.toValue (t : Tool) : Value :=
  Value.obj
    [ ("name", Value.str t.Name),
      ("description", Value.str t.Description),
      ("inputSchema", t.InputSchema) ]

def handleToolsList (req : MCPRequest) : MCPResponse :=
  { JSONRPC := "2.0"
    ID := req.ID
    Result := Value.obj [("tools", Value.arr (tools.map Tool.toValue))]
    Error := none }

/-- The filtering block of `getStudentList`: the loop appends the records of
the section when the local `section` (here `sectionArg`) is not
empty, otherwise the whole list is taken. -/
def filteredStudents (sectionArg : String) : List Student :=
  if sectionArg ≠ "" then
    students.foldl
      (fun acc student => if student.Section = sectionArg then acc ++ [student] else acc) []
  else
    students

def getStudentList (id : Value) (args : GoMap) : MCPResponse :=
  let sectionArg := (GoMap.index args "section").assertString.1
  let filteredStudents := filteredStudents sectionArg
  { JSONRPC := "2.0"
    ID := id
    Result := Value.obj
      [ ("content", Value.arr
          [ Value.obj
              [ ("type", Value.str "text"),
                ("text", Value.str
                  ("找到 " ++ fmtInt (Int.ofNat filteredStudents.length) ++ " 名学生:\n"
                    ++ formatStudentList filteredStudents)) ] ]) ]
    Error := none }

/-- The scanning loop of `getStudentInfo`: the first record with the given ID,
at which the loop returns, or `none` when the loop runs to its end. -/
def scanStudents (records : List Student) (studentID : String) : Option Student :=
  match records with
  | [] => none
  | student :: rest =>
    if student.ID = studentID then some student else scanStudents rest studentID

def getStudentInfo (id : Value) (args : GoMap) : MCPResponse :=
  let r := (GoMap.index args "student_id").assertString
  if ¬ r.2 = true then
    { JSONRPC := "2.0"
      ID := id
      Result := Value.null
      Error := some { Code := -32602, Message := "student_id is required" } }
  else
    match scanStudents students r.1 with
    | some student =>
      { JSONRPC := "2.0"
        ID := id
        Result := Value.obj
          [ ("content", Value.arr
              [ Value.obj
                  [ ("type", Value.str "text"),
                    ("text", Value.str (formatStudentInfo student)) ] ]) ]
        Error := none }
    | none =>
      { JSONRPC := "2.0"
        ID := id
        Result := Value.null
        Error := some { Code := -32603, Message := "Student not found" } }

def handleToolsCall (req : MCPRequest) : MCPResponse :=
  let p := req.Params.assertMap
  if ¬ p.2 = true then
    { JSONRPC := "2.0"
      ID := req.ID
      Result := Value.null
      Error := some { Code := -32602, Message := "Invalid params" } }
  else
    let n := (GoMap.index p.1 "name").assertString
    if ¬ n.2 = true then
      { JSONRPC := "2.0"
        ID := req.ID
        Result := Value.null
        Error := some { Code := -32602, Message := "Tool name is required" } }
    else
      let toolArgs := (GoMap.index p.1 "arguments").assertMap.1
      if n.1 = "get_student_list" then getStudentList req.ID toolArgs
      else if n.1 = "get_student_info" then getStudentInfo req.ID toolArgs
      else
        { JSONRPC := "2.0"
          ID := req.ID
          Result := Value.null
          Error := some { Code := -32601, Message := "Tool not found" } }

def handleRequest (req : MCPRequest) : MCPResponse :=
  if req.Method = "initialize" then handleInitialize req
  else if req.Method = "tools/list" then handleToolsList req
  else if req.Method = "tools/call" then handleToolsCall req
  else
    { JSONRPC := "2.0"
      ID := req.ID
      Result := Value.null
      Error := some { Code := -32601, Message := "Method not found" } }

/-! ## The handlers over operations that can panic -/

/-- A run-time panic of the Go program. -/
inductive Panic where
  | interfaceConversion : Panic

/-- The outcome of running Go code: its value, or the panic that ends it. -/
abbrev Go (α : Type) := Except Panic α

/-- The type assertion to `string` in its two forms. The single-result form
`v.(string)` (`commaOk = false`) panics when `v` holds no string; the
two-result form `s, ok := v.(string)` (`commaOk = true`) then yields the zero
value `""` and `false`. -/
def assertStringGo (commaOk : Bool) (v : Value) : Go (String × Bool) :=
  match v with
  | Value.str s => Except.ok (s, true)
  | _ => if commaOk = true then Except.ok ("", false) else Except.error Panic.interfaceConversion

/-- The type assertion to `map[string]interface{}` in its two forms: the
single-result form panics when `v` holds no map, the two-result form then
yields the nil map and `false`. -/
def assertMapGo (commaOk : Bool) (v : Value) : Go (GoMap × Bool) :=
  match v with
  | Value.obj kvs => Except.ok (some kvs, true)
  | _ => if commaOk = true then Except.ok (none, false) else Except.error Panic.interfaceConversion

/-- The read `m[k]` of a map: the entry, or the zero value `nil` when the map
has no such entry or is the nil map; a read never panics. -/
def indexGo (m : GoMap) (k : String) : Go Value :=
  match m with
  | none => Except.ok Value.null
  | some kvs =>
    match kvs.lookup k with
    | some v => Except.ok v
    | none => Except.ok Value.null

/-- `getStudentList` run over these operations: line 180 reads the map and
asserts in the two-result form. -/
def getStudentListGo (id : Value) (args : GoMap) : Go MCPResponse := do
  let v ← indexGo args "section"
  let r ← assertStringGo true v
  let filteredStudents := filteredStudents r.1
  pure
    { JSONRPC := "2.0"
      ID := id
      Result := Value.obj
        [ ("content", Value.arr
            [ Value.obj
                [ ("type", Value.str "text"),
                  ("text", Value.str
                    ("找到 " ++ fmtInt (Int.ofNat filteredStudents.length) ++ " 名学生:\n"
                      ++ formatStudentList filteredStudents)) ] ]) ]
      Error := none }

/-- `getStudentInfo` run over these operations: line 208 reads the map and
asserts in the two-result form. -/
def getStudentInfoGo (id : Value) (args : GoMap) : Go MCPResponse := do
  let v ← indexGo args "student_id"
  let r ← assertStringGo true v
  if ¬ r.2 = true then
    pure
      { JSONRPC := "2.0"
        ID := id
        Result := Value.null
        Error := some { Code := -32602, Message := "student_id is required" } }
  else
    match scanStudents students r.1 with
    | some student =>
      pure
        { JSONRPC := "2.0"
          ID := id
          Result := Value.obj
            [ ("content", Value.arr
                [ Value.obj
                    [ ("type", Value.str "text"),
                      ("text", Value.str (formatStudentInfo student)) ] ]) ]
          Error := none }
    | none =>
      pure
        { JSONRPC := "2.0"
          ID := id
          Result := Value.null
          Error := some { Code := -32603, Message := "Student not found" } }

/-- `handleToolsCall` run over these operations: lines 136, 148 and 160 assert
in the two-result form, lines 148 and 160 read the params map. -/
def handleToolsCallGo (req : MCPRequest) : Go MCPResponse := do
  let p ← assertMapGo true req.Params
  if ¬ p.2 = true then
    pure
      { JSONRPC := "2.0"
        ID := req.ID
        Result := Value.null
        Error := some { Code := -32602, Message := "Invalid params" } }
  else
    let nv ← indexGo p.1 "name"
    let n ← assertStringGo true nv
    if ¬ n.2 = true then
      pure
        { JSONRPC := "2.0"
          ID := req.ID
          Result := Value.null
          Error := some { Code := -32602, Message := "Tool name is required" } }
    else
      let av ← indexGo p.1 "arguments"
      let a ← assertMapGo true av
      if n.1 = "get_student_list" then getStudentListGo req.ID a.1
      else if n.1 = "get_student_info" then getStudentInfoGo req.ID a.1
      else
        pure
          { JSONRPC := "2.0"
            ID := req.ID
            Result := Value.null
            Error := some { Code := -32601, Message := "Tool not found" } }

/-- `handleRequest` run over these operations. -/
def handleRequestGo (req : MCPRequest) : Go MCPResponse :=
  if req.Method = "initialize" then pure (handleInitialize req)
  else if req.Method = "tools/list" then pure (handleToolsList req)
  else if req.Method = "tools/call" then handleToolsCallGo req
  else
    pure
      { JSONRPC := "2.0"
        ID := req.ID
        Result := Value.null
        Error := some { Code := -32601, Message := "Method not found" } }

/-! ## Transport loop -/

/-- The loop of `main` over the decode outcomes of the input stream, each a
decoded request or a decode error; the end of the sequence is the end of the
stream, which the decoder reports as an error. The result is the sequence of
responses written to the output. `encodeOk` tells whether the encoder writes a
response without error. A decode error and an encode error both leave the
loop. -/
def main (encodeOk : MCPResponse → Bool) (inputs : List (Except String MCPRequest)) :
    List MCPResponse :=
  match inputs with
  | [] => []
  | Except.error _ :: _ => []
  | Except.ok req :: rest =>
    let resp := handleRequest req
    if ¬ encodeOk resp = true then []
    else resp :: main encodeOk rest

/-! ## The list text as the specification words it -/

/-- The text of the single content block of a tool result, if the response
has that shape. -/
def textOf (resp : MCPResponse) : Option String :=
  match resp.Result with
  | Value.obj [("content", Value.arr [Value.obj [("type", Value.str "text"),
      ("text", Value.str t)]])] => some t
  | _ => none

/-- The count line of the list text, without the newline after it. -/
def countLine (n : Nat) : String :=
  "找到 " ++ fmtInt (Int.ofNat n) ++ " 名学生:"

/-- The line of a record in the layout of `formatStudentList`, without the
newline after it. -/
def recordLine (student : Student) : String :=
  "ID: " ++ student.ID ++ ", 姓名: " ++ student.Name ++ ", 年龄: " ++ fmtInt student.Age
    ++ ", 年级: " ++ student.Grade ++ ", 班级: " ++ student.Section

/-- The list text in the words of the specification: the count line and one
line per record, joined with a single newline between consecutive lines. -/
def joinedListText (records : List Student) : String :=
  "\n".intercalate (countLine records.length :: records.map recordLine)

/-! ## Shared lemmas on the handlers -/

theorem getStudentList_ID (id : Value) (args : GoMap) : (getStudentList id args).ID = id := rfl

theorem getStudentInfo_ID (id : Value) (args : GoMap) : (getStudentInfo id args).ID = id := by
  unfold getStudentInfo
  dsimp only
  split_ifs
  · split <;> rfl
  · rfl

theorem handleToolsCall_ID (req : MCPRequest) : (handleToolsCall req).ID = req.ID := by
  unfold handleToolsCall
  dsimp only
  split_ifs
  · exact getStudentList_ID _ _
  · exact getStudentInfo_ID _ _
  all_goals rfl

/-- A response carries exactly one of a result and an error. -/
def ExactlyOne (resp : MCPResponse) : Prop :=
  (resp.Result ≠ Value.null ∧ resp.Error = none) ∨ (resp.Error ≠ none ∧ resp.Result = Value.null)

theorem getStudentList_exactlyOne (id : Value) (args : GoMap) :
    ExactlyOne (getStudentList id args) := by
  left
  exact ⟨by simp [getStudentList], rfl⟩

theorem getStudentInfo_exactlyOne (id : Value) (args : GoMap) :
    ExactlyOne (getStudentInfo id args) := by
  unfold getStudentInfo
  dsimp only
  split_ifs
  · split
    · left; exact ⟨by simp, rfl⟩
    · right; exact ⟨by simp, rfl⟩
  · right; exact ⟨by simp, rfl⟩

theorem handleToolsCall_exactlyOne (req : MCPRequest) : ExactlyOne (handleToolsCall req) := by
  unfold handleToolsCall
  dsimp only
  split_ifs
  · exact getStudentList_exactlyOne _ _
  · exact getStudentInfo_exactlyOne _ _
  all_goals right; exact ⟨by simp, rfl⟩

/-! ## The assertions and the map index by cases -/

theorem assertString_str (s : String) : (Value.str s).assertString = (s, true) := rfl

theorem assertString_of_not_str (v : Value) (h : ∀ s, v ≠ Value.str s) :
    v.assertString = ("", false) := by
  cases v with
  | str s => exact absurd rfl (h s)
  | _ => rfl

theorem assertMap_obj (kvs : List (String × Value)) :
    (Value.obj kvs).assertMap = (some kvs, true) := rfl

theorem assertMap_of_not_obj (v : Value) (h : ∀ kvs, v ≠ Value.obj kvs) :
    v.assertMap = (none, false) := by
  cases v with
  | obj kvs => exact absurd rfl (h kvs)
  | _ => rfl

theorem index_of_find (m : GoMap) (k : String) (v : Value) (h : GoMap.find? m k = some v) :
    GoMap.index m k = v := by
  simp [GoMap.index, h]

theorem index_not_str (m : GoMap) (k : String)
    (h : ∀ s, GoMap.find? m k ≠ some (Value.str s)) (s : String) :
    GoMap.index m k ≠ Value.str s := by
  intro hs
  unfold GoMap.index at hs
  cases hf : GoMap.find? m k with
  | none => rw [hf] at hs; simp at hs
  | some v =>
    rw [hf] at hs
    simp only [Option.getD_some] at hs
    exact h s (by rw [hf, hs])

theorem index_not_obj (m : GoMap) (k : String)
    (h : ∀ kvs, GoMap.find? m k ≠ some (Value.obj kvs)) (kvs : List (String × Value)) :
    GoMap.index m k ≠ Value.obj kvs := by
  intro hs
  unfold GoMap.index at hs
  cases hf : GoMap.find? m k with
  | none => rw [hf] at hs; simp at hs
  | some v =>
    rw [hf] at hs
    simp only [Option.getD_some] at hs
    exact h kvs (by rw [hf, hs])

/-! ## The tool dispatch by cases -/

theorem handleToolsCall_of_not_obj (req : MCPRequest) (h : ∀ kvs, req.Params ≠ Value.obj kvs) :
    handleToolsCall req =
      { JSONRPC := "2.0", ID := req.ID, Result := Value.null,
        Error := some { Code := -32602, Message := "Invalid params" } } := by
  unfold handleToolsCall
  simp [assertMap_of_not_obj _ h]

theorem handleToolsCall_of_no_name (req : MCPRequest) (kvs : List (String × Value))
    (hp : req.Params = Value.obj kvs) (h : ∀ s, kvs.lookup "name" ≠ some (Value.str s)) :
    handleToolsCall req =
      { JSONRPC := "2.0", ID := req.ID, Result := Value.null,
        Error := some { Code := -32602, Message := "Tool name is required" } } := by
  unfold handleToolsCall
  have hn : (GoMap.index (some kvs) "name").assertString = ("", false) :=
    assertString_of_not_str _ (index_not_str (some kvs) "name" h)
  simp [hp, assertMap_obj, hn]

/-- The arguments map a tools/call hands to its tool: the nil map unless
`arguments` holds a mapping. -/
def toolArgsOf (kvs : List (String × Value)) : GoMap :=
  (GoMap.index (some kvs) "arguments").assertMap.1

theorem handleToolsCall_of_name (req : MCPRequest) (kvs : List (String × Value))
    (name : String) (hp : req.Params = Value.obj kvs)
    (h : kvs.lookup "name" = some (Value.str name)) :
    handleToolsCall req =
      if name = "get_student_list" then getStudentList req.ID (toolArgsOf kvs)
      else if name = "get_student_info" then getStudentInfo req.ID (toolArgsOf kvs)
      else
        { JSONRPC := "2.0", ID := req.ID, Result := Value.null,
          Error := some { Code := -32601, Message := "Tool not found" } } := by
  unfold handleToolsCall
  have hn : GoMap.index (some kvs) "name" = Value.str name := index_of_find _ _ _ h
  simp [hp, assertMap_obj, hn, assertString_str, toolArgsOf]

theorem toolArgsOf_of_obj (kvs m : List (String × Value))
    (h : kvs.lookup "arguments" = some (Value.obj m)) : toolArgsOf kvs = some m := by
  unfold toolArgsOf
  rw [index_of_find (some kvs) "arguments" (Value.obj m) h]
  rfl

theorem toolArgsOf_of_not_obj (kvs : List (String × Value))
    (h : ∀ m, kvs.lookup "arguments" ≠ some (Value.obj m)) : toolArgsOf kvs = none := by
  unfold toolArgsOf
  rw [assertMap_of_not_obj _ (index_not_obj (some kvs) "arguments" h)]

theorem handleRequest_toolsCall (req : MCPRequest) (h : req.Method = "tools/call") :
    handleRequest req = handleToolsCall req := by
  unfold handleRequest
  simp [h]

/-! ## The two tools by cases -/

theorem getStudentInfo_of_no_id (id : Value) (args : GoMap)
    (h : ∀ s, GoMap.find? args "student_id" ≠ some (Value.str s)) :
    getStudentInfo id args =
      { JSONRPC := "2.0", ID := id, Result := Value.null,
        Error := some { Code := -32602, Message := "student_id is required" } } := by
  unfold getStudentInfo
  simp [assertString_of_not_str _ (index_not_str args "student_id" h)]

theorem getStudentInfo_of_id (id : Value) (args : GoMap) (sid : String)
    (h : GoMap.find? args "student_id" = some (Value.str sid)) :
    getStudentInfo id args =
      match scanStudents students sid with
      | some student =>
        { JSONRPC := "2.0", ID := id,
          Result := Value.obj
            [ ("content", Value.arr
                [ Value.obj
                    [ ("type", Value.str "text"),
                      ("text", Value.str (formatStudentInfo student)) ] ]) ],
          Error := none }
      | none =>
        { JSONRPC := "2.0", ID := id, Result := Value.null,
          Error := some { Code := -32603, Message := "Student not found" } } := by
  unfold getStudentInfo
  simp [index_of_find args "student_id" _ h, assertString_str]

theorem getStudentList_of_section (id : Value) (args : GoMap) (s : String)
    (h : (GoMap.index args "section").assertString.1 = s) :
    getStudentList id args =
      { JSONRPC := "2.0", ID := id,
        Result := Value.obj
          [ ("content", Value.arr
              [ Value.obj
                  [ ("type", Value.str "text"),
                    ("text", Value.str
                      ("找到 " ++ fmtInt (Int.ofNat (filteredStudents s).length) ++ " 名学生:\n"
                        ++ formatStudentList (filteredStudents s))) ] ]) ],
        Error := none } := by
  subst h
  rfl

/-- Every error of the tool dispatch is one of five code and message pairs. -/
theorem handleToolsCall_error_cases (req : MCPRequest) (e : MCPError)
    (h : (handleToolsCall req).Error = some e) :
    e = { Code := -32602, Message := "Invalid params" } ∨
    e = { Code := -32602, Message := "Tool name is required" } ∨
    e = { Code := -32601, Message := "Tool not found" } ∨
    e = { Code := -32602, Message := "student_id is required" } ∨
    e = { Code := -32603, Message := "Student not found" } := by
  unfold handleToolsCall at h
  dsimp only at h
  split_ifs at h
  · simp [getStudentList] at h
  · unfold getStudentInfo at h
    dsimp only at h
    split_ifs at h
    · split at h
      · simp at h
      · simp only [Option.some.injEq] at h
        subst h
        simp
    · simp only [Option.some.injEq] at h
      subst h
      simp
  all_goals
    simp only [Option.some.injEq] at h
    subst h
    simp

/-! ## The scanning and filtering loops -/

theorem scanStudents_first (pre post : List Student) (st : Student) (sid : String)
    (hst : st.ID = sid) (hpre : ∀ r ∈ pre, r.ID ≠ sid) :
    scanStudents (pre ++ st :: post) sid = some st := by
  induction pre with
  | nil => simp [scanStudents, hst]
  | cons a rest ih =>
    have ha : a.ID ≠ sid := hpre a (List.mem_cons_self a rest)
    have hrest : ∀ r ∈ rest, r.ID ≠ sid := fun r hr => hpre r (List.mem_cons_of_mem a hr)
    simp [scanStudents, ha, ih hrest]

theorem scanStudents_eq_none (records : List Student) (sid : String) :
    scanStudents records sid = none ↔ ∀ r ∈ records, r.ID ≠ sid := by
  induction records with
  | nil => simp [scanStudents]
  | cons a rest ih =>
    unfold scanStudents
    by_cases ha : a.ID = sid
    · simp [ha]
    · simp [ha, ih]

theorem foldl_append_filter (records acc : List Student) (s : String) :
    records.foldl (fun acc student => if student.Section = s then acc ++ [student] else acc) acc
      = acc ++ records.filter (fun r => decide (r.Section = s)) := by
  induction records generalizing acc with
  | nil => simp
  | cons a rest ih =>
    by_cases ha : a.Section = s
    · simp [List.foldl, ha, ih]
    · simp [List.foldl, ha, ih]

theorem filteredStudents_of_ne_empty (s : String) (hs : s ≠ "") :
    filteredStudents s = students.filter (fun r => decide (r.Section = s)) := by
  unfold filteredStudents
  rw [if_pos hs, foldl_append_filter]
  rfl

theorem filteredStudents_empty : filteredStudents "" = students := rfl

/-! ## The list text -/

theorem studentLine_eq (student : Student) : studentLine student = recordLine student ++ "\n" :=
  rfl

theorem foldl_studentLine (records : List Student) (acc : String) :
    records.foldl (fun result student => result ++ studentLine student) acc
      = acc ++ formatStudentList records := by
  unfold formatStudentList
  induction records generalizing acc with
  | nil => simp
  | cons a rest ih =>
    simp only [List.foldl_cons]
    rw [ih (acc ++ studentLine a), ih ("" ++ studentLine a)]
    simp [String.append_assoc]

theorem formatStudentList_cons (a : Student) (rest : List Student) :
    formatStudentList (a :: rest) = studentLine a ++ formatStudentList rest := by
  have h := foldl_studentLine rest ("" ++ studentLine a)
  rw [String.empty_append] at h
  exact h

theorem intercalate_go_lines (records : List Student) (acc : String) :
    String.intercalate.go acc "\n" (records.map recordLine) ++ "\n"
      = acc ++ "\n" ++ formatStudentList records := by
  induction records generalizing acc with
  | nil => simp [String.intercalate.go, formatStudentList]
  | cons a rest ih =>
    simp only [List.map_cons, String.intercalate.go]
    rw [ih (acc ++ "\n" ++ recordLine a), formatStudentList_cons, studentLine_eq]
    simp [String.append_assoc]

theorem listText_eq (records : List Student) :
    "找到 " ++ fmtInt (Int.ofNat records.length) ++ " 名学生:\n" ++ formatStudentList records
      = joinedListText records ++ "\n" := by
  unfold joinedListText
  simp only [String.intercalate]
  rw [intercalate_go_lines records (countLine records.length)]
  unfold countLine
  have h : (" 名学生:\n" : String) = " 名学生:" ++ "\n" := by decide
  rw [h]
  simp [String.append_assoc]

/-! ## The single-result assertion -/

theorem assertStringGo_single_panics (v : Value) (h : ∀ s, v ≠ Value.str s) :
    assertStringGo false v = Except.error Panic.interfaceConversion := by
  cases v with
  | str s => exact absurd rfl (h s)
  | _ => rfl

/-! ## Claims -/

/-- C1: on every path of `handleRequest` (initialize, tools/list, every
tools/call outcome and every error) the response carries the ID of the
request, whatever the method, the params and the ID are. -/
theorem handleRequest_echoes_id (req : MCPRequest) : (handleRequest req).ID = req.ID := by
  unfold handleRequest
  split_ifs
  · rfl
  · rfl
  · exact handleToolsCall_ID req
  · rfl

/-- C2: every response of `handleRequest` has exactly one of `Result` and
`Error` set: a non-nil result with a nil error, or a non-nil error with a nil
result. -/
theorem handleRequest_result_xor_error (req : MCPRequest) :
    ((handleRequest req).Result ≠ Value.null ∧ (handleRequest req).Error = none) ∨
      ((handleRequest req).Error ≠ none ∧ (handleRequest req).Result = Value.null) := by
  unfold handleRequest
  split_ifs
  · left; exact ⟨by simp [handleInitialize], rfl⟩
  · left; exact ⟨by simp [handleToolsList], rfl⟩
  · exact handleToolsCall_exactlyOne req
  · right; exact ⟨by simp, rfl⟩

/-- C3: `handleRequest` never panics and returns exactly one response. Run
over operations that can panic (a single-result assertion on a value of
another type), every request, whatever the shape of its params, ends in a
response, the one of `handleRequest`, and so do the two tools on every
arguments map. On the nil map, which a tools/call passes when `arguments` is
absent or not a mapping, the lookups yield nil: `getStudentList` lists every
record and `getStudentInfo` reports the missing `student_id`. -/
theorem handleRequest_never_panics (req : MCPRequest) :
    handleRequestGo req = Except.ok (handleRequest req) ∧
    handleToolsCallGo req = Except.ok (handleToolsCall req) ∧
    (∀ (id : Value) (args : GoMap),
      getStudentListGo id args = Except.ok (getStudentList id args)) ∧
    (∀ (id : Value) (args : GoMap),
      getStudentInfoGo id args = Except.ok (getStudentInfo id args)) ∧
    getStudentListGo req.ID none = Except.ok
      { JSONRPC := "2.0", ID := req.ID,
        Result := Value.obj
          [ ("content", Value.arr
              [ Value.obj
                  [ ("type", Value.str "text"),
                    ("text", Value.str ("找到 5 名学生:\n" ++ formatStudentList students)) ] ]) ],
        Error := none } ∧
    getStudentInfoGo req.ID none = Except.ok
      { JSONRPC := "2.0", ID := req.ID, Result := Value.null,
        Error := some { Code := -32602, Message := "student_id is required" } } ∧
    (req.Method = "tools/call" → (∀ kvs, req.Params ≠ Value.obj kvs) →
      handleRequestGo req = Except.ok
        { JSONRPC := "2.0", ID := req.ID, Result := Value.null,
          Error := some { Code := -32602, Message := "Invalid params" } }) ∧
    (∀ kvs : List (String × Value), req.Method = "tools/call" → req.Params = Value.obj kvs →
      (∀ m, kvs.lookup "arguments" ≠ some (Value.obj m)) →
        (kvs.lookup "name" = some (Value.str "get_student_list") →
          handleRequestGo req = getStudentListGo req.ID none) ∧
        (kvs.lookup "name" = some (Value.str "get_student_info") →
          handleRequestGo req = getStudentInfoGo req.ID none)) := by
  have indexGo_eq : ∀ (m : GoMap) (k : String),
      indexGo m k = Except.ok (GoMap.index m k) := by
    intro m k
    unfold indexGo GoMap.index GoMap.find?
    cases m with
    | none => rfl
    | some kvs =>
      dsimp only
      cases kvs.lookup k <;> rfl
  have assertStringGo_commaOk : ∀ v : Value,
      assertStringGo true v = Except.ok v.assertString := by
    intro v
    cases v <;> rfl
  have assertMapGo_commaOk : ∀ v : Value, assertMapGo true v = Except.ok v.assertMap := by
    intro v
    cases v <;> rfl
  have hlist : ∀ (id : Value) (args : GoMap),
      getStudentListGo id args = Except.ok (getStudentList id args) := by
    intro id args
    unfold getStudentListGo
    simp only [indexGo_eq, assertStringGo_commaOk, bind, Except.bind]
    rfl
  have hinfo : ∀ (id : Value) (args : GoMap),
      getStudentInfoGo id args = Except.ok (getStudentInfo id args) := by
    intro id args
    unfold getStudentInfoGo getStudentInfo
    simp only [indexGo_eq, assertStringGo_commaOk, bind, Except.bind]
    split_ifs
    · split <;> rfl
    · rfl
  have hcall : handleToolsCallGo req = Except.ok (handleToolsCall req) := by
    unfold handleToolsCallGo handleToolsCall
    simp only [indexGo_eq, assertStringGo_commaOk, assertMapGo_commaOk, bind, Except.bind]
    split_ifs
    · exact hlist _ _
    · exact hinfo _ _
    all_goals rfl
  have hrun : handleRequestGo req = Except.ok (handleRequest req) := by
    unfold handleRequestGo handleRequest
    split_ifs
    · rfl
    · rfl
    · exact hcall
    · rfl
  refine ⟨hrun, hcall, hlist, hinfo, ?_, ?_, ?_, ?_⟩
  · rw [hlist]
    rfl
  · rw [hinfo]
    rfl
  · intro hm hp
    rw [hrun]
    unfold handleRequest handleToolsCall
    simp [hm, assertMap_of_not_obj _ hp]
  · intro kvs hm hp hargs
    have hnil : (GoMap.index (some kvs) "arguments").assertMap = (none, false) :=
      assertMap_of_not_obj _ (index_not_obj (some kvs) "arguments" hargs)
    rw [hrun, hlist, hinfo]
    constructor
    · intro hn
      have hname : GoMap.index (some kvs) "name" = Value.str "get_student_list" :=
        index_of_find _ _ _ hn
      unfold handleRequest handleToolsCall
      simp [hm, hp, assertMap_obj, hname, assertString_str, hnil]
    · intro hn
      have hname : GoMap.index (some kvs) "name" = Value.str "get_student_info" :=
        index_of_find _ _ _ hn
      unfold handleRequest handleToolsCall
      simp [hm, hp, assertMap_obj, hname, assertString_str, hnil]

/-- Params that are absent, a number or a sequence end in the response
"Invalid params"; a get_student_info call whose `arguments` is a sequence and a
get_student_list call without `arguments` end in the response of the tool on
the nil map. -/
theorem handleRequest_never_panics_witness :
    handleRequestGo
        { JSONRPC := "2.0", ID := Value.num 1, Method := "tools/call", Params := Value.null } =
      Except.ok
        { JSONRPC := "2.0", ID := Value.num 1, Result := Value.null,
          Error := some { Code := -32602, Message := "Invalid params" } } ∧
    handleRequestGo
        { JSONRPC := "2.0", ID := Value.num 1, Method := "tools/call", Params := Value.num 3 } =
      Except.ok
        { JSONRPC := "2.0", ID := Value.num 1, Result := Value.null,
          Error := some { Code := -32602, Message := "Invalid params" } } ∧
    handleRequestGo
        { JSONRPC := "2.0", ID := Value.num 1, Method := "tools/call",
          Params := Value.arr [Value.obj []] } =
      Except.ok
        { JSONRPC := "2.0", ID := Value.num 1, Result := Value.null,
          Error := some { Code := -32602, Message := "Invalid params" } } ∧
    handleRequestGo
        { JSONRPC := "2.0", ID := Value.null, Method := "tools/call",
          Params := Value.obj
            [("name", Value.str "get_student_info"), ("arguments", Value.arr [])] } =
      getStudentInfoGo Value.null none ∧
    handleRequestGo
        { JSONRPC := "2.0", ID := Value.null, Method := "tools/call",
          Params := Value.obj [("name", Value.str "get_student_list")] } =
      getStudentListGo Value.null none :=
  ⟨(handleRequest_never_panics
      { JSONRPC := "2.0", ID := Value.num 1, Method := "tools/call",
        Params := Value.null }).2.2.2.2.2.2.1 rfl (by intro kvs h; cases h),
    (handleRequest_never_panics
      { JSONRPC := "2.0", ID := Value.num 1, Method := "tools/call",
        Params := Value.num 3 }).2.2.2.2.2.2.1 rfl (by intro kvs h; cases h),
    (handleRequest_never_panics
      { JSONRPC := "2.0", ID := Value.num 1, Method := "tools/call",
        Params := Value.arr [Value.obj []] }).2.2.2.2.2.2.1 rfl (by intro kvs h; cases h),
    ((handleRequest_never_panics
      { JSONRPC := "2.0", ID := Value.null, Method := "tools/call",
        Params := Value.obj
          [("name", Value.str "get_student_info"), ("arguments", Value.arr [])] }).2.2.2.2.2.2.2
      [("name", Value.str "get_student_info"), ("arguments", Value.arr [])] rfl rfl
      (by intro m h; simp [List.lookup] at h)).2 (by simp [List.lookup]),
    ((handleRequest_never_panics
      { JSONRPC := "2.0", ID := Value.null, Method := "tools/call",
        Params := Value.obj [("name", Value.str "get_student_list")] }).2.2.2.2.2.2.2
      [("name", Value.str "get_student_list")] rfl rfl
      (by intro m h; simp [List.lookup] at h)).1 (by simp [List.lookup])⟩

/-- C4: a request whose method is none of "initialize", "tools/list" and
"tools/call" gets the error -32601 "Method not found"; a request with one of
the three methods never gets the message "Method not found". -/
theorem handleRequest_method_not_found (req : MCPRequest) :
    (req.Method ≠ "initialize" → req.Method ≠ "tools/list" → req.Method ≠ "tools/call" →
      handleRequest req =
        { JSONRPC := "2.0", ID := req.ID, Result := Value.null,
          Error := some { Code := -32601, Message := "Method not found" } }) ∧
    (req.Method = "initialize" ∨ req.Method = "tools/list" ∨ req.Method = "tools/call" →
      ∀ e, (handleRequest req).Error = some e → e.Message ≠ "Method not found") := by
  constructor
  · intro h1 h2 h3
    unfold handleRequest
    simp [h1, h2, h3]
  · intro h e he
    unfold handleRequest at he
    split_ifs at he with h1 h2 h3
    · simp [handleInitialize] at he
    · simp [handleToolsList] at he
    · rcases handleToolsCall_error_cases req e he with h | h | h | h | h <;>
        · subst h
          decide
    · rcases h with h | h | h
      · exact absurd h h1
      · exact absurd h h2
      · exact absurd h h3

/-- The empty method and a case variant of "initialize" are not found. -/
theorem handleRequest_method_not_found_witness :
    handleRequest { JSONRPC := "2.0", ID := Value.num 0, Method := "", Params := Value.null } =
        { JSONRPC := "2.0", ID := Value.num 0, Result := Value.null,
          Error := some { Code := -32601, Message := "Method not found" } } ∧
    handleRequest
        { JSONRPC := "2.0", ID := Value.str "a", Method := "Initialize", Params := Value.null } =
        { JSONRPC := "2.0", ID := Value.str "a", Result := Value.null,
          Error := some { Code := -32601, Message := "Method not found" } } ∧
    ∀ e, (handleRequest
        { JSONRPC := "2.0", ID := Value.null, Method := "tools/call",
          Params := Value.null }).Error = some e → e.Message ≠ "Method not found" :=
  ⟨(handleRequest_method_not_found
      { JSONRPC := "2.0", ID := Value.num 0, Method := "", Params := Value.null }).1
      (by decide) (by decide) (by decide),
    (handleRequest_method_not_found
      { JSONRPC := "2.0", ID := Value.str "a", Method := "Initialize", Params := Value.null }).1
      (by decide) (by decide) (by decide),
    (handleRequest_method_not_found
      { JSONRPC := "2.0", ID := Value.null, Method := "tools/call", Params := Value.null }).2
      (Or.inr (Or.inr rfl))⟩

/-- C5: a tools/call whose params is not a mapping gets the error -32602
"Invalid params"; one whose params is a mapping in which `name` is absent or
not a string gets the error -32602 "Tool name is required", whatever else the
mapping holds under `arguments` or any other key. -/
theorem handleRequest_toolsCall_params (req : MCPRequest) (hm : req.Method = "tools/call") :
    ((∀ kvs, req.Params ≠ Value.obj kvs) →
      handleRequest req =
        { JSONRPC := "2.0", ID := req.ID, Result := Value.null,
          Error := some { Code := -32602, Message := "Invalid params" } }) ∧
    (∀ kvs : List (String × Value), req.Params = Value.obj kvs →
      (∀ s, kvs.lookup "name" ≠ some (Value.str s)) →
      handleRequest req =
        { JSONRPC := "2.0", ID := req.ID, Result := Value.null,
          Error := some { Code := -32602, Message := "Tool name is required" } }) := by
  rw [handleRequest_toolsCall req hm]
  exact ⟨handleToolsCall_of_not_obj req, handleToolsCall_of_no_name req⟩

/-- Params given as a sequence are invalid; a numeric `name` beside well-formed
`arguments` is a missing tool name. -/
theorem handleRequest_toolsCall_params_witness :
    handleRequest
        { JSONRPC := "2.0", ID := Value.num 1, Method := "tools/call",
          Params := Value.arr [Value.str "get_student_list"] } =
        { JSONRPC := "2.0", ID := Value.num 1, Result := Value.null,
          Error := some { Code := -32602, Message := "Invalid params" } } ∧
    handleRequest
        { JSONRPC := "2.0", ID := Value.num 1, Method := "tools/call",
          Params := Value.obj
            [ ("name", Value.num 5),
              ("arguments", Value.obj [("student_id", Value.str "1")]) ] } =
        { JSONRPC := "2.0", ID := Value.num 1, Result := Value.null,
          Error := some { Code := -32602, Message := "Tool name is required" } } :=
  ⟨(handleRequest_toolsCall_params
      { JSONRPC := "2.0", ID := Value.num 1, Method := "tools/call",
        Params := Value.arr [Value.str "get_student_list"] } rfl).1
      (by intro kvs h; cases h),
    (handleRequest_toolsCall_params
      { JSONRPC := "2.0", ID := Value.num 1, Method := "tools/call",
        Params := Value.obj
          [ ("name", Value.num 5),
            ("arguments", Value.obj [("student_id", Value.str "1")]) ] } rfl).2
      [ ("name", Value.num 5), ("arguments", Value.obj [("student_id", Value.str "1")]) ] rfl
      (by intro s h; simp [List.lookup] at h)⟩

/-- C6: a tools/call whose params is a mapping with a string `name` other than
"get_student_list" and "get_student_info" gets the error -32601 "Tool not
found", whatever `arguments` holds: the tool name is resolved before any
argument is looked at. -/
theorem handleRequest_tool_not_found (req : MCPRequest) (kvs : List (String × Value))
    (name : String) (hm : req.Method = "tools/call") (hp : req.Params = Value.obj kvs)
    (hn : kvs.lookup "name" = some (Value.str name))
    (h1 : name ≠ "get_student_list") (h2 : name ≠ "get_student_info") :
    handleRequest req =
      { JSONRPC := "2.0", ID := req.ID, Result := Value.null,
        Error := some { Code := -32601, Message := "Tool not found" } } := by
  rw [handleRequest_toolsCall req hm, handleToolsCall_of_name req kvs name hp hn]
  simp [h1, h2]

/-- An unknown tool is not found even when `arguments` is not a mapping. -/
theorem handleRequest_tool_not_found_witness :
    handleRequest
        { JSONRPC := "2.0", ID := Value.str "x", Method := "tools/call",
          Params := Value.obj
            [("name", Value.str "unknown_tool"), ("arguments", Value.bool true)] } =
      { JSONRPC := "2.0", ID := Value.str "x", Result := Value.null,
        Error := some { Code := -32601, Message := "Tool not found" } } :=
  handleRequest_tool_not_found
    { JSONRPC := "2.0", ID := Value.str "x", Method := "tools/call",
      Params := Value.obj
        [("name", Value.str "unknown_tool"), ("arguments", Value.bool true)] }
    [("name", Value.str "unknown_tool"), ("arguments", Value.bool true)]
    "unknown_tool" rfl rfl (by simp [List.lookup]) (by decide) (by decide)

/-- C7: when `student_id` is the string `sid` (the empty string included),
get_student_info answers with the rendering of the first record, in
declaration order, whose ID is `sid`, and with the error -32603 "Student not
found" when no record has that ID; so it succeeds exactly when some record
has that ID. -/
theorem getStudentInfo_first_match (id : Value) (args : GoMap) (sid : String)
    (h : GoMap.find? args "student_id" = some (Value.str sid)) :
    (∀ (pre post : List Student) (st : Student), students = pre ++ st :: post →
      st.ID = sid → (∀ r ∈ pre, r.ID ≠ sid) →
      getStudentInfo id args =
        { JSONRPC := "2.0", ID := id,
          Result := Value.obj
            [ ("content", Value.arr
                [ Value.obj
                    [ ("type", Value.str "text"),
                      ("text", Value.str (formatStudentInfo st)) ] ]) ],
          Error := none }) ∧
    ((∀ r ∈ students, r.ID ≠ sid) →
      getStudentInfo id args =
        { JSONRPC := "2.0", ID := id, Result := Value.null,
          Error := some { Code := -32603, Message := "Student not found" } }) ∧
    (((getStudentInfo id args).Error = none ∧ (getStudentInfo id args).Result ≠ Value.null) ↔
      ∃ r ∈ students, r.ID = sid) := by
  rw [getStudentInfo_of_id id args sid h]
  refine ⟨?_, ?_, ?_⟩
  · intro pre post st hdec hst hpre
    rw [hdec, scanStudents_first pre post st sid hst hpre]
  · intro hnone
    rw [(scanStudents_eq_none students sid).2 hnone]
  · cases hscan : scanStudents students sid with
    | none =>
      have hall := (scanStudents_eq_none students sid).1 hscan
      constructor
      · intro hc
        simp at hc
      · rintro ⟨r, hr, hrid⟩
        exact absurd hrid (hall r hr)
    | some st =>
      constructor
      · intro _
        by_contra hex
        have hall : ∀ r ∈ students, r.ID ≠ sid := fun r hr hrid => hex ⟨r, hr, hrid⟩
        rw [(scanStudents_eq_none students sid).2 hall] at hscan
        cases hscan
      · intro _
        simp

/-- The ID "2" is answered with the second record, the ID "999" and the empty
ID with "Student not found". -/
theorem getStudentInfo_first_match_witness :
    getStudentInfo (Value.num 3) (some [("student_id", Value.str "2")]) =
        { JSONRPC := "2.0", ID := Value.num 3,
          Result := Value.obj
            [ ("content", Value.arr
                [ Value.obj
                    [ ("type", Value.str "text"),
                      ("text", Value.str
                        "学生详细信息:\nID: 2\n姓名: 李四\n年龄: 17\n年级: 高二\n班级: B班") ] ]) ],
          Error := none } ∧
    getStudentInfo (Value.num 3) (some [("student_id", Value.str "999")]) =
        { JSONRPC := "2.0", ID := Value.num 3, Result := Value.null,
          Error := some { Code := -32603, Message := "Student not found" } } ∧
    getStudentInfo (Value.num 3) (some [("student_id", Value.str "")]) =
        { JSONRPC := "2.0", ID := Value.num 3, Result := Value.null,
          Error := some { Code := -32603, Message := "Student not found" } } :=
  ⟨(getStudentInfo_first_match (Value.num 3) (some [("student_id", Value.str "2")]) "2"
      (by simp [GoMap.find?, List.lookup])).1
      [{ ID := "1", Name := "张三", Age := 18, Grade := "高三", Section := "A班" }]
      [{ ID := "3", Name := "王五", Age := 16, Grade := "高一", Section := "C班" },
       { ID := "4", Name := "赵六", Age := 17, Grade := "高二", Section := "A班" },
       { ID := "5", Name := "孙七", Age := 16, Grade := "高一", Section := "B班" }]
      { ID := "2", Name := "李四", Age := 17, Grade := "高二", Section := "B班" }
      rfl rfl (by decide),
    (getStudentInfo_first_match (Value.num 3) (some [("student_id", Value.str "999")]) "999"
      (by simp [GoMap.find?, List.lookup])).2.1 (by decide),
    (getStudentInfo_first_match (Value.num 3) (some [("student_id", Value.str "")]) ""
      (by simp [GoMap.find?, List.lookup])).2.1 (by decide)⟩

/-- C8: a get_student_info call gets the error -32602 "student_id is
required" when `arguments` is absent or not a mapping, and when `arguments`
is a mapping in which `student_id` is missing or not a string; when
`student_id` is a string the response is never an error with code -32602. -/
theorem handleRequest_student_id_required (req : MCPRequest) (kvs : List (String × Value))
    (hm : req.Method = "tools/call") (hp : req.Params = Value.obj kvs)
    (hn : kvs.lookup "name" = some (Value.str "get_student_info")) :
    ((∀ m, kvs.lookup "arguments" ≠ some (Value.obj m)) →
      handleRequest req =
        { JSONRPC := "2.0", ID := req.ID, Result := Value.null,
          Error := some { Code := -32602, Message := "student_id is required" } }) ∧
    (∀ m : List (String × Value), kvs.lookup "arguments" = some (Value.obj m) →
      (∀ s, m.lookup "student_id" ≠ some (Value.str s)) →
      handleRequest req =
        { JSONRPC := "2.0", ID := req.ID, Result := Value.null,
          Error := some { Code := -32602, Message := "student_id is required" } }) ∧
    (∀ (m : List (String × Value)) (sid : String),
      kvs.lookup "arguments" = some (Value.obj m) →
      m.lookup "student_id" = some (Value.str sid) →
      ∀ e, (handleRequest req).Error = some e → e.Code ≠ -32602) := by
  have hcall : handleRequest req = getStudentInfo req.ID (toolArgsOf kvs) := by
    rw [handleRequest_toolsCall req hm, handleToolsCall_of_name req kvs _ hp hn]
    simp
  rw [hcall]
  refine ⟨?_, ?_, ?_⟩
  · intro hargs
    rw [toolArgsOf_of_not_obj kvs hargs]
    rfl
  · intro m hargs hid
    rw [toolArgsOf_of_obj kvs m hargs]
    exact getStudentInfo_of_no_id req.ID (some m) hid
  · intro m sid hargs hid e he
    rw [toolArgsOf_of_obj kvs m hargs, getStudentInfo_of_id req.ID (some m) sid hid] at he
    cases hscan : scanStudents students sid with
    | none =>
      rw [hscan] at he
      simp only [Option.some.injEq] at he
      subst he
      decide
    | some st =>
      rw [hscan] at he
      simp at he

/-- A numeric `student_id` and absent `arguments` are both answered with
"student_id is required"; the unknown string ID "999" is answered with the
code -32603. -/
theorem handleRequest_student_id_required_witness :
    handleRequest
        { JSONRPC := "2.0", ID := Value.num 9, Method := "tools/call",
          Params := Value.obj [("name", Value.str "get_student_info")] } =
        { JSONRPC := "2.0", ID := Value.num 9, Result := Value.null,
          Error := some { Code := -32602, Message := "student_id is required" } } ∧
    handleRequest
        { JSONRPC := "2.0", ID := Value.num 9, Method := "tools/call",
          Params := Value.obj
            [ ("name", Value.str "get_student_info"),
              ("arguments", Value.obj [("student_id", Value.num 2)]) ] } =
        { JSONRPC := "2.0", ID := Value.num 9, Result := Value.null,
          Error := some { Code := -32602, Message := "student_id is required" } } ∧
    ∀ e, (handleRequest
        { JSONRPC := "2.0", ID := Value.num 9, Method := "tools/call",
          Params := Value.obj
            [ ("name", Value.str "get_student_info"),
              ("arguments", Value.obj [("student_id", Value.str "999")]) ] }).Error = some e →
      e.Code ≠ -32602 :=
  ⟨(handleRequest_student_id_required
      { JSONRPC := "2.0", ID := Value.num 9, Method := "tools/call",
        Params := Value.obj [("name", Value.str "get_student_info")] }
      [("name", Value.str "get_student_info")] rfl rfl (by simp [List.lookup])).1
      (by intro m h; simp [List.lookup] at h),
    (handleRequest_student_id_required
      { JSONRPC := "2.0", ID := Value.num 9, Method := "tools/call",
        Params := Value.obj
          [ ("name", Value.str "get_student_info"),
            ("arguments", Value.obj [("student_id", Value.num 2)]) ] }
      [ ("name", Value.str "get_student_info"),
        ("arguments", Value.obj [("student_id", Value.num 2)]) ]
      rfl rfl (by simp [List.lookup])).2.1
      [("student_id", Value.num 2)] (by simp [List.lookup])
      (by intro s h; simp [List.lookup] at h),
    (handleRequest_student_id_required
      { JSONRPC := "2.0", ID := Value.num 9, Method := "tools/call",
        Params := Value.obj
          [ ("name", Value.str "get_student_info"),
            ("arguments", Value.obj [("student_id", Value.str "999")]) ] }
      [ ("name", Value.str "get_student_info"),
        ("arguments", Value.obj [("student_id", Value.str "999")]) ]
      rfl rfl (by simp [List.lookup])).2.2
      [("student_id", Value.str "999")] "999" (by simp [List.lookup])
      (by simp [List.lookup])⟩

/-- C9: when `section` is a non-empty string `s`, get_student_list succeeds,
lists exactly the records whose Section equals `s`, in declaration order, and
announces their number. On the seed data "A班" lists the records "1" and "4"
and announces 2, and "Z班" lists nothing and announces 0. -/
theorem getStudentList_filters_by_section :
    (∀ (id : Value) (args : GoMap) (s : String), s ≠ "" →
      GoMap.find? args "section" = some (Value.str s) →
      getStudentList id args =
        { JSONRPC := "2.0", ID := id,
          Result := Value.obj
            [ ("content", Value.arr
                [ Value.obj
                    [ ("type", Value.str "text"),
                      ("text", Value.str
                        ("找到 "
                          ++ fmtInt (Int.ofNat
                              (students.filter (fun r => decide (r.Section = s))).length)
                          ++ " 名学生:\n"
                          ++ formatStudentList
                              (students.filter (fun r => decide (r.Section = s))))) ] ]) ],
          Error := none }) ∧
    (students.filter (fun r => decide (r.Section = "A班"))).map (fun r => r.ID) = ["1", "4"] ∧
    (∀ id : Value, getStudentList id (some [("section", Value.str "A班")]) =
        { JSONRPC := "2.0", ID := id,
          Result := Value.obj
            [ ("content", Value.arr
                [ Value.obj
                    [ ("type", Value.str "text"),
                      ("text", Value.str
                        ("找到 2 名学生:\n"
                          ++ "ID: 1, 姓名: 张三, 年龄: 18, 年级: 高三, 班级: A班\n"
                          ++ "ID: 4, 姓名: 赵六, 年龄: 17, 年级: 高二, 班级: A班\n")) ] ]) ],
          Error := none }) ∧
    students.filter (fun r => decide (r.Section = "Z班")) = [] ∧
    (∀ id : Value, getStudentList id (some [("section", Value.str "Z班")]) =
        { JSONRPC := "2.0", ID := id,
          Result := Value.obj
            [ ("content", Value.arr
                [ Value.obj
                    [ ("type", Value.str "text"),
                      ("text", Value.str "找到 0 名学生:\n") ] ]) ],
          Error := none }) := by
  refine ⟨?_, by decide, fun id => rfl, rfl, fun id => rfl⟩
  intro id args s hs h
  have hsec : (GoMap.index args "section").assertString.1 = s := by
    rw [index_of_find args "section" _ h]
    rfl
  rw [getStudentList_of_section id args s hsec, filteredStudents_of_ne_empty s hs]

/-- The section "B班" lists the records "2" and "5". -/
theorem getStudentList_filters_by_section_witness :
    getStudentList (Value.str "q") (some [("section", Value.str "B班")]) =
      { JSONRPC := "2.0", ID := Value.str "q",
        Result := Value.obj
          [ ("content", Value.arr
              [ Value.obj
                  [ ("type", Value.str "text"),
                    ("text", Value.str
                      ("找到 2 名学生:\n"
                        ++ "ID: 2, 姓名: 李四, 年龄: 17, 年级: 高二, 班级: B班\n"
                        ++ "ID: 5, 姓名: 孙七, 年龄: 16, 年级: 高一, 班级: B班\n")) ] ]) ],
        Error := none } :=
  getStudentList_filters_by_section.1 (Value.str "q") (some [("section", Value.str "B班")])
    "B班" (by decide) (by simp [GoMap.find?, List.lookup])

/-- C10: when `section` is absent (also on the nil map) or is the empty
string, get_student_list succeeds, lists all five seed records in declaration
order, IDs "1" to "5", and announces the count 5. -/
theorem getStudentList_all (id : Value) (args : GoMap)
    (h : GoMap.find? args "section" = none ∨
      GoMap.find? args "section" = some (Value.str "")) :
    getStudentList id args =
        { JSONRPC := "2.0", ID := id,
          Result := Value.obj
            [ ("content", Value.arr
                [ Value.obj
                    [ ("type", Value.str "text"),
                      ("text", Value.str
                        ("找到 5 名学生:\n" ++ formatStudentList students)) ] ]) ],
          Error := none } ∧
    filteredStudents (GoMap.index args "section").assertString.1 = students ∧
    students.map (fun r => r.ID) = ["1", "2", "3", "4", "5"] ∧
    formatStudentList students =
      "ID: 1, 姓名: 张三, 年龄: 18, 年级: 高三, 班级: A班\n"
        ++ "ID: 2, 姓名: 李四, 年龄: 17, 年级: 高二, 班级: B班\n"
        ++ "ID: 3, 姓名: 王五, 年龄: 16, 年级: 高一, 班级: C班\n"
        ++ "ID: 4, 姓名: 赵六, 年龄: 17, 年级: 高二, 班级: A班\n"
        ++ "ID: 5, 姓名: 孙七, 年龄: 16, 年级: 高一, 班级: B班\n" := by
  have hsec : (GoMap.index args "section").assertString.1 = "" := by
    rcases h with h | h
    · simp [GoMap.index, h, Value.assertString]
    · rw [index_of_find args "section" _ h]
      rfl
  refine ⟨?_, ?_, by decide, rfl⟩
  · rw [getStudentList_of_section id args "" hsec]
    rfl
  · rw [hsec]
    rfl

/-- An arguments map without `section` and one with the empty `section` both
list the five records. -/
theorem getStudentList_all_witness :
    getStudentList Value.null (some [("other", Value.num 1)]) =
        { JSONRPC := "2.0", ID := Value.null,
          Result := Value.obj
            [ ("content", Value.arr
                [ Value.obj
                    [ ("type", Value.str "text"),
                      ("text", Value.str
                        ("找到 5 名学生:\n" ++ formatStudentList students)) ] ]) ],
          Error := none } ∧
    getStudentList Value.null (some [("section", Value.str "")]) =
        { JSONRPC := "2.0", ID := Value.null,
          Result := Value.obj
            [ ("content", Value.arr
                [ Value.obj
                    [ ("type", Value.str "text"),
                      ("text", Value.str
                        ("找到 5 名学生:\n" ++ formatStudentList students)) ] ]) ],
          Error := none } :=
  ⟨(getStudentList_all Value.null (some [("other", Value.num 1)])
      (Or.inl (by simp [GoMap.find?, List.lookup]))).1,
    (getStudentList_all Value.null (some [("section", Value.str "")])
      (Or.inr (by simp [GoMap.find?, List.lookup]))).1⟩

/-- C11: for a tools/call whose params is a mapping with a string `name`, an
absent or non-mapping `arguments` gets the same response as the request with
the same id and name whose `arguments` is the empty mapping. -/
theorem handleRequest_arguments_default (req req2 : MCPRequest)
    (kvs kvs2 : List (String × Value)) (name : String)
    (hm : req.Method = "tools/call") (hm2 : req2.Method = "tools/call")
    (hid : req2.ID = req.ID)
    (hp : req.Params = Value.obj kvs) (hp2 : req2.Params = Value.obj kvs2)
    (hn : kvs.lookup "name" = some (Value.str name))
    (hn2 : kvs2.lookup "name" = some (Value.str name))
    (hargs : ∀ m, kvs.lookup "arguments" ≠ some (Value.obj m))
    (hargs2 : kvs2.lookup "arguments" = some (Value.obj [])) :
    handleRequest req = handleRequest req2 := by
  rw [handleRequest_toolsCall req hm, handleRequest_toolsCall req2 hm2,
    handleToolsCall_of_name req kvs name hp hn, handleToolsCall_of_name req2 kvs2 name hp2 hn2,
    toolArgsOf_of_not_obj kvs hargs, toolArgsOf_of_obj kvs2 [] hargs2, hid]
  rfl

/-- A get_student_list call whose `arguments` is a string, and a
get_student_info call without `arguments`, answer as with the empty mapping. -/
theorem handleRequest_arguments_default_witness :
    handleRequest
        { JSONRPC := "2.0", ID := Value.num 4, Method := "tools/call",
          Params := Value.obj
            [("name", Value.str "get_student_list"), ("arguments", Value.str "A班")] } =
      handleRequest
        { JSONRPC := "2.0", ID := Value.num 4, Method := "tools/call",
          Params := Value.obj
            [("name", Value.str "get_student_list"), ("arguments", Value.obj [])] } ∧
    handleRequest
        { JSONRPC := "2.0", ID := Value.num 4, Method := "tools/call",
          Params := Value.obj [("name", Value.str "get_student_info")] } =
      handleRequest
        { JSONRPC := "2.0", ID := Value.num 4, Method := "tools/call",
          Params := Value.obj
            [("arguments", Value.obj []), ("name", Value.str "get_student_info")] } :=
  ⟨handleRequest_arguments_default
      { JSONRPC := "2.0", ID := Value.num 4, Method := "tools/call",
        Params := Value.obj
          [("name", Value.str "get_student_list"), ("arguments", Value.str "A班")] }
      { JSONRPC := "2.0", ID := Value.num 4, Method := "tools/call",
        Params := Value.obj
          [("name", Value.str "get_student_list"), ("arguments", Value.obj [])] }
      [("name", Value.str "get_student_list"), ("arguments", Value.str "A班")]
      [("name", Value.str "get_student_list"), ("arguments", Value.obj [])]
      "get_student_list" rfl rfl rfl rfl rfl (by simp [List.lookup]) (by simp [List.lookup])
      (by intro m h; simp [List.lookup] at h) (by simp [List.lookup]),
    handleRequest_arguments_default
      { JSONRPC := "2.0", ID := Value.num 4, Method := "tools/call",
        Params := Value.obj [("name", Value.str "get_student_info")] }
      { JSONRPC := "2.0", ID := Value.num 4, Method := "tools/call",
        Params := Value.obj
          [("arguments", Value.obj []), ("name", Value.str "get_student_info")] }
      [("name", Value.str "get_student_info")]
      [("arguments", Value.obj []), ("name", Value.str "get_student_info")]
      "get_student_info" rfl rfl rfl rfl rfl (by simp [List.lookup]) (by simp [List.lookup])
      (by intro m h; simp [List.lookup] at h) (by simp [List.lookup])⟩

/-- C12: a tools/list request, whatever its params and id, succeeds with a
result whose `tools` is the sequence of exactly two descriptors, the first
named "get_student_list" and the second "get_student_info"; the result is the
same for every tools/list request. -/
theorem handleRequest_toolsList (req : MCPRequest) (hm : req.Method = "tools/list") :
    handleRequest req =
      { JSONRPC := "2.0", ID := req.ID,
        Result := Value.obj
          [ ("tools", Value.arr
              [ Value.obj
                  [ ("name", Value.str "get_student_list"),
                    ("description", Value.str "获取班级所有学生的列表"),
                    ("inputSchema", Value.obj
                      [ ("type", Value.str "object"),
                        ("properties", Value.obj
                          [ ("section", Value.obj
                              [ ("type", Value.str "string"),
                                ("description", Value.str
                                  "班级名称，可选参数。如果提供，则只返回该班级的学生") ]) ]) ]) ],
                Value.obj
                  [ ("name", Value.str "get_student_info"),
                    ("description", Value.str "根据学生ID获取单个学生的详细信息"),
                    ("inputSchema", Value.obj
                      [ ("type", Value.str "object"),
                        ("properties", Value.obj
                          [ ("student_id", Value.obj
                              [ ("type", Value.str "string"),
                                ("description", Value.str "学生的唯一标识ID") ]) ]),
                        ("required", Value.arr [Value.str "student_id"]) ]) ] ]) ],
        Error := none } ∧
    (∀ req2 : MCPRequest, req2.Method = "tools/list" →
      (handleRequest req2).Result = (handleRequest req).Result) := by
  have key : ∀ r : MCPRequest, r.Method = "tools/list" → handleRequest r = handleToolsList r := by
    intro r hr
    unfold handleRequest
    simp [hr]
  refine ⟨?_, ?_⟩
  · rw [key req hm]
    rfl
  · intro req2 hm2
    rw [key req hm, key req2 hm2]
    rfl

/-- A tools/list request with a sequence as params and a string id gets the two
descriptors, and its result is the one of a request without params. -/
theorem handleRequest_toolsList_witness :
    handleRequest
        { JSONRPC := "2.0", ID := Value.str "b", Method := "tools/list",
          Params := Value.arr [Value.num 1] } =
      { JSONRPC := "2.0", ID := Value.str "b",
        Result := Value.obj
          [ ("tools", Value.arr
              [ Value.obj
                  [ ("name", Value.str "get_student_list"),
                    ("description", Value.str "获取班级所有学生的列表"),
                    ("inputSchema", Value.obj
                      [ ("type", Value.str "object"),
                        ("properties", Value.obj
                          [ ("section", Value.obj
                              [ ("type", Value.str "string"),
                                ("description", Value.str
                                  "班级名称，可选参数。如果提供，则只返回该班级的学生") ]) ]) ]) ],
                Value.obj
                  [ ("name", Value.str "get_student_info"),
                    ("description", Value.str "根据学生ID获取单个学生的详细信息"),
                    ("inputSchema", Value.obj
                      [ ("type", Value.str "object"),
                        ("properties", Value.obj
                          [ ("student_id", Value.obj
                              [ ("type", Value.str "string"),
                                ("description", Value.str "学生的唯一标识ID") ]) ]),
                        ("required", Value.arr [Value.str "student_id"]) ]) ] ]) ],
        Error := none } ∧
    (handleRequest
        { JSONRPC := "2.0", ID := Value.null, Method := "tools/list",
          Params := Value.null }).Result =
      (handleRequest
        { JSONRPC := "2.0", ID := Value.str "b", Method := "tools/list",
          Params := Value.arr [Value.num 1] }).Result :=
  ⟨(handleRequest_toolsList
      { JSONRPC := "2.0", ID := Value.str "b", Method := "tools/list",
        Params := Value.arr [Value.num 1] } rfl).1,
    (handleRequest_toolsList
      { JSONRPC := "2.0", ID := Value.str "b", Method := "tools/list",
        Params := Value.arr [Value.num 1] } rfl).2
      { JSONRPC := "2.0", ID := Value.null, Method := "tools/list", Params := Value.null }
      rfl⟩

/-- C13: a tools/call that succeeds carries a result that is a mapping whose
`content` is a sequence of exactly one block, the block being the mapping of
the two keys `type`, equal to "text", and `text`, a string. -/
theorem handleRequest_toolsCall_content (req : MCPRequest) (hm : req.Method = "tools/call")
    (hok : (handleRequest req).Error = none) :
    ∃ text : String, (handleRequest req).Result =
      Value.obj
        [ ("content", Value.arr
            [ Value.obj [("type", Value.str "text"), ("text", Value.str text)] ]) ] := by
  rw [handleRequest_toolsCall req hm] at hok ⊢
  unfold handleToolsCall at hok ⊢
  dsimp only at hok ⊢
  split_ifs at hok ⊢
  · exact ⟨_, rfl⟩
  · unfold getStudentInfo at hok ⊢
    dsimp only at hok ⊢
    split_ifs at hok ⊢
    split at hok
    · exact ⟨_, rfl⟩
    · simp at hok

/-- The successful call for the student "3" carries one text block. -/
theorem handleRequest_toolsCall_content_witness :
    ∃ text : String,
      (handleRequest
        { JSONRPC := "2.0", ID := Value.num 8, Method := "tools/call",
          Params := Value.obj
            [ ("name", Value.str "get_student_info"),
              ("arguments", Value.obj [("student_id", Value.str "3")]) ] }).Result =
      Value.obj
        [ ("content", Value.arr
            [ Value.obj [("type", Value.str "text"), ("text", Value.str text)] ]) ] :=
  handleRequest_toolsCall_content
    { JSONRPC := "2.0", ID := Value.num 8, Method := "tools/call",
      Params := Value.obj
        [ ("name", Value.str "get_student_info"),
          ("arguments", Value.obj [("student_id", Value.str "3")]) ] }
    rfl rfl

/-- C14, as stated, fails: the text of a list result is not the count line and
the record lines joined with a newline between consecutive lines, for a
newline also follows the last line. Shown on the section "Z班", with no
record, and on the section "A班", with two. -/
theorem getStudentList_text_not_joined :
    textOf (getStudentList Value.null (some [("section", Value.str "Z班")])) = some "找到 0 名学生:\n" ∧
    joinedListText (filteredStudents "Z班") = "找到 0 名学生:" ∧
    textOf (getStudentList Value.null (some [("section", Value.str "Z班")])) ≠
      some (joinedListText (filteredStudents "Z班")) ∧
    textOf (getStudentList Value.null (some [("section", Value.str "A班")])) ≠
      some (joinedListText (filteredStudents "A班")) := by
  refine ⟨rfl, rfl, by decide, by decide⟩

/-- C14, amended: for every get_student_list call the text is the count line
followed by one line per record of the filtered set, in its order, each line,
the count line included, ended by a newline: the lines joined with a single
newline between consecutive lines and one more newline after the last. Each
record line holds the ID, name, age, grade and section of its record. -/
theorem getStudentList_text (id : Value) (args : GoMap) :
    getStudentList id args =
      { JSONRPC := "2.0", ID := id,
        Result := Value.obj
          [ ("content", Value.arr
              [ Value.obj
                  [ ("type", Value.str "text"),
                    ("text", Value.str
                      (joinedListText
                          (filteredStudents (GoMap.index args "section").assertString.1)
                        ++ "\n")) ] ]) ],
        Error := none } ∧
    (∀ records : List Student, joinedListText records =
      "\n".intercalate (("找到 " ++ fmtInt (Int.ofNat records.length) ++ " 名学生:") ::
        records.map (fun r => "ID: " ++ r.ID ++ ", 姓名: " ++ r.Name ++ ", 年龄: "
          ++ fmtInt r.Age ++ ", 年级: " ++ r.Grade ++ ", 班级: " ++ r.Section))) := by
  refine ⟨?_, fun records => rfl⟩
  rw [getStudentList_of_section id args _ rfl, listText_eq]

/-- C15: an initialize request, whatever its params and id, succeeds with the
fixed result: protocolVersion "2024-11-05", a capabilities mapping holding the
key `tools`, and serverInfo with the name "student-management-server" and the
version "1.0.0"; it never carries an error. -/
theorem handleRequest_init_fixed (req : MCPRequest) (hm : req.Method = "initialize") :
    handleRequest req =
      { JSONRPC := "2.0", ID := req.ID,
        Result := Value.obj
          [ ("protocolVersion", Value.str "2024-11-05"),
            ("capabilities", Value.obj [("tools", Value.obj [])]),
            ("serverInfo", Value.obj
              [ ("name", Value.str "student-management-server"),
                ("version", Value.str "1.0.0") ]) ],
        Error := none } ∧
    (handleRequest req).Error = none := by
  have key : handleRequest req = handleInitialize req := by
    unfold handleRequest
    simp [hm]
  rw [key]
  exact ⟨rfl, rfl⟩

/-- An initialize request with a sequence as params and a string id gets the
fixed announcement. -/
theorem handleRequest_init_fixed_witness :
    handleRequest
        { JSONRPC := "2.0", ID := Value.str "init", Method := "initialize",
          Params := Value.arr [Value.bool false] } =
      { JSONRPC := "2.0", ID := Value.str "init",
        Result := Value.obj
          [ ("protocolVersion", Value.str "2024-11-05"),
            ("capabilities", Value.obj [("tools", Value.obj [])]),
            ("serverInfo", Value.obj
              [ ("name", Value.str "student-management-server"),
                ("version", Value.str "1.0.0") ]) ],
        Error := none } :=
  (handleRequest_init_fixed
    { JSONRPC := "2.0", ID := Value.str "init", Method := "initialize",
      Params := Value.arr [Value.bool false] } rfl).1

/-- C16: when encoding succeeds, the loop of `main` writes the responses of
the requests decoded before the first decode failure, one for each and in
their order, and nothing for the failing input nor for what follows it; when
no input fails it writes the response of every request up to the end of the
stream. -/
theorem main_stops_at_first_decode_failure (encodeOk : MCPResponse → Bool)
    (henc : ∀ resp, encodeOk resp = true) (reqs : List MCPRequest) :
    (∀ (err : String) (rest : List (Except String MCPRequest)),
      main encodeOk (reqs.map Except.ok ++ Except.error err :: rest)
        = reqs.map handleRequest) ∧
    main encodeOk (reqs.map Except.ok) = reqs.map handleRequest := by
  constructor
  · intro err rest
    induction reqs with
    | nil => simp [main]
    | cons r rs ih => simp [main, henc, ih]
  · induction reqs with
    | nil => simp [main]
    | cons r rs ih => simp [main, henc, ih]

/-- Two requests, a malformed input, then a third request: only the first two
are answered. -/
theorem main_stops_at_first_decode_failure_witness :
    main (fun _ => true)
        [ Except.ok { JSONRPC := "2.0", ID := Value.num 1, Method := "foo", Params := Value.null },
          Except.ok { JSONRPC := "2.0", ID := Value.num 2, Method := "", Params := Value.null },
          Except.error "invalid character",
          Except.ok
            { JSONRPC := "2.0", ID := Value.num 3, Method := "bar", Params := Value.null } ] =
      [ { JSONRPC := "2.0", ID := Value.num 1, Result := Value.null,
          Error := some { Code := -32601, Message := "Method not found" } },
        { JSONRPC := "2.0", ID := Value.num 2, Result := Value.null,
          Error := some { Code := -32601, Message := "Method not found" } } ] :=
  (main_stops_at_first_decode_failure (fun _ => true) (fun _ => rfl)
    [ { JSONRPC := "2.0", ID := Value.num 1, Method := "foo", Params := Value.null },
      { JSONRPC := "2.0", ID := Value.num 2, Method := "", Params := Value.null } ]).1
    "invalid character"
    [ Except.ok { JSONRPC := "2.0", ID := Value.num 3, Method := "bar", Params := Value.null } ]

/-- C17: the IDs of the seed records are pairwise distinct, and for every
record `r` of the seed set get_student_info with `student_id` equal to the ID
of `r` succeeds with the rendering of `r` itself. -/
theorem getStudentInfo_seed_record :
    (students.map (fun r => r.ID)).Nodup ∧
    (∀ r ∈ students, ∀ (id : Value) (args : GoMap),
      GoMap.find? args "student_id" = some (Value.str r.ID) →
      getStudentInfo id args =
        { JSONRPC := "2.0", ID := id,
          Result := Value.obj
            [ ("content", Value.arr
                [ Value.obj
                    [ ("type", Value.str "text"),
                      ("text", Value.str (formatStudentInfo r)) ] ]) ],
          Error := none }) := by
  refine ⟨by decide, ?_⟩
  intro r hr id args h
  rw [getStudentInfo_of_id id args r.ID h]
  have hscan : scanStudents students r.ID = some r := by
    simp only [students, List.mem_cons, List.mem_singleton, List.not_mem_nil, or_false] at hr
    rcases hr with rfl | rfl | rfl | rfl | rfl <;> rfl
  rw [hscan]

/-- The fourth seed record is found under its own ID "4". -/
theorem getStudentInfo_seed_record_witness :
    getStudentInfo Value.null (some [("student_id", Value.str "4")]) =
      { JSONRPC := "2.0", ID := Value.null,
        Result := Value.obj
          [ ("content", Value.arr
              [ Value.obj
                  [ ("type", Value.str "text"),
                    ("text", Value.str
                      "学生详细信息:\nID: 4\n姓名: 赵六\n年龄: 17\n年级: 高二\n班级: A班") ] ]) ],
        Error := none } :=
  getStudentInfo_seed_record.2
    { ID := "4", Name := "赵六", Age := 17, Grade := "高二", Section := "A班" }
    (by simp [students]) Value.null (some [("student_id", Value.str "4")])
    (by simp [GoMap.find?, List.lookup])

/-- C18: every error of `handleRequest` is one of six code and message pairs:
"Method not found" and "Tool not found" with -32601; "Invalid params", "Tool
name is required" and "student_id is required" with -32602; "Student not
found" with -32603. So the code is one of the three and the message fixes
it. -/
theorem handleRequest_error_cases (req : MCPRequest) (e : MCPError)
    (h : (handleRequest req).Error = some e) :
    (e = { Code := -32601, Message := "Method not found" } ∨
      e = { Code := -32601, Message := "Tool not found" } ∨
      e = { Code := -32602, Message := "Invalid params" } ∨
      e = { Code := -32602, Message := "Tool name is required" } ∨
      e = { Code := -32602, Message := "student_id is required" } ∨
      e = { Code := -32603, Message := "Student not found" }) ∧
    (e.Code = -32601 ∨ e.Code = -32602 ∨ e.Code = -32603) := by
  have hcases : e = { Code := -32601, Message := "Method not found" } ∨
      e = { Code := -32601, Message := "Tool not found" } ∨
      e = { Code := -32602, Message := "Invalid params" } ∨
      e = { Code := -32602, Message := "Tool name is required" } ∨
      e = { Code := -32602, Message := "student_id is required" } ∨
      e = { Code := -32603, Message := "Student not found" } := by
    unfold handleRequest at h
    split_ifs at h
    · simp [handleInitialize] at h
    · simp [handleToolsList] at h
    · rcases handleToolsCall_error_cases req e h with h1 | h1 | h1 | h1 | h1 <;> simp [h1]
    · simp only [Option.some.injEq] at h
      exact Or.inl h.symm
  refine ⟨hcases, ?_⟩
  rcases hcases with h1 | h1 | h1 | h1 | h1 | h1 <;> simp [h1]

/-- The error of a tools/call without params is "Invalid params" with the
code -32602. -/
theorem handleRequest_error_cases_witness :
    (({ Code := -32602, Message := "Invalid params" } : MCPError) =
        { Code := -32601, Message := "Method not found" } ∨
      ({ Code := -32602, Message := "Invalid params" } : MCPError) =
        { Code := -32601, Message := "Tool not found" } ∨
      ({ Code := -32602, Message := "Invalid params" } : MCPError) =
        { Code := -32602, Message := "Invalid params" } ∨
      ({ Code := -32602, Message := "Invalid params" } : MCPError) =
        { Code := -32602, Message := "Tool name is required" } ∨
      ({ Code := -32602, Message := "Invalid params" } : MCPError) =
        { Code := -32602, Message := "student_id is required" } ∨
      ({ Code := -32602, Message := "Invalid params" } : MCPError) =
        { Code := -32603, Message := "Student not found" }) ∧
    ((-32602 : Int) = -32601 ∨ (-32602 : Int) = -32602 ∨ (-32602 : Int) = -32603) :=
  handleRequest_error_cases
    { JSONRPC := "2.0", ID := Value.null, Method := "tools/call", Params := Value.null }
    { Code := -32602, Message := "Invalid params" } rfl

/-- C19: the jsonrpc tag of the request is never checked and never changes the
outcome: two requests that agree on id, method and params get equal
responses, whatever their tags, and the tag of every response is "2.0". -/
theorem handleRequest_ignores_jsonrpc (req req2 : MCPRequest)
    (hid : req.ID = req2.ID) (hmeth : req.Method = req2.Method)
    (hpar : req.Params = req2.Params) :
    handleRequest req = handleRequest req2 ∧ (handleRequest req).JSONRPC = "2.0" := by
  constructor
  · cases req with
    | mk j i m p =>
      cases req2 with
      | mk j2 i2 m2 p2 =>
        simp only at hid hmeth hpar
        subst hid hmeth hpar
        rfl
  · unfold handleRequest
    split_ifs
    · rfl
    · rfl
    · unfold handleToolsCall
      dsimp only
      split_ifs
      · rfl
      · unfold getStudentInfo
        dsimp only
        split_ifs
        · split <;> rfl
        · rfl
      all_goals rfl
    · rfl

/-- A get_student_info call tagged "1.0" and one with an empty tag get the same
response, tagged "2.0". -/
theorem handleRequest_ignores_jsonrpc_witness :
    handleRequest
        { JSONRPC := "1.0", ID := Value.num 6, Method := "tools/call",
          Params := Value.obj
            [ ("name", Value.str "get_student_info"),
              ("arguments", Value.obj [("student_id", Value.str "5")]) ] } =
      handleRequest
        { JSONRPC := "", ID := Value.num 6, Method := "tools/call",
          Params := Value.obj
            [ ("name", Value.str "get_student_info"),
              ("arguments", Value.obj [("student_id", Value.str "5")]) ] } ∧
    (handleRequest
        { JSONRPC := "1.0", ID := Value.num 6, Method := "tools/call",
          Params := Value.obj
            [ ("name", Value.str "get_student_info"),
              ("arguments", Value.obj [("student_id", Value.str "5")]) ] }).JSONRPC = "2.0" :=
  handleRequest_ignores_jsonrpc
    { JSONRPC := "1.0", ID := Value.num 6, Method := "tools/call",
      Params := Value.obj
        [ ("name", Value.str "get_student_info"),
          ("arguments", Value.obj [("student_id", Value.str "5")]) ] }
    { JSONRPC := "", ID := Value.num 6, Method := "tools/call",
      Params := Value.obj
        [ ("name", Value.str "get_student_info"),
          ("arguments", Value.obj [("student_id", Value.str "5")]) ] }
    rfl rfl rfl

/-- C20: get_student_list never carries an error, and a `section` that is
present with a value that is not a string is ignored: the response is the one
of a call without `section`, the list of all five records; get_student_info
answers a `student_id` that is not a string with the error -32602. -/
theorem getStudentList_ignores_bad_section (id : Value) (args : GoMap) :
    (getStudentList id args).Error = none ∧
    (∀ v : Value, GoMap.find? args "section" = some v → (∀ s, v ≠ Value.str s) →
      (∀ args2 : GoMap, GoMap.find? args2 "section" = none →
        getStudentList id args = getStudentList id args2) ∧
      getStudentList id args =
        { JSONRPC := "2.0", ID := id,
          Result := Value.obj
            [ ("content", Value.arr
                [ Value.obj
                    [ ("type", Value.str "text"),
                      ("text", Value.str
                        ("找到 5 名学生:\n" ++ formatStudentList students)) ] ]) ],
          Error := none }) ∧
    (∀ v : Value, GoMap.find? args "student_id" = some v → (∀ s, v ≠ Value.str s) →
      getStudentInfo id args =
        { JSONRPC := "2.0", ID := id, Result := Value.null,
          Error := some { Code := -32602, Message := "student_id is required" } }) := by
  refine ⟨rfl, ?_, ?_⟩
  · intro v hv hns
    have hsec : (GoMap.index args "section").assertString.1 = "" := by
      rw [index_of_find args "section" v hv, assertString_of_not_str v hns]
    have hall : getStudentList id args = getStudentList id none := by
      rw [getStudentList_of_section id args "" hsec]
      rfl
    refine ⟨?_, ?_⟩
    · intro args2 h2
      have hsec2 : (GoMap.index args2 "section").assertString.1 = "" := by
        simp [GoMap.index, h2, Value.assertString]
      rw [hall, getStudentList_of_section id args2 "" hsec2]
      rfl
    · rw [hall]
      rfl
  · intro v hv hns
    apply getStudentInfo_of_no_id
    intro s hs
    rw [hv] at hs
    exact hns s (Option.some.inj hs)

/-- A numeric `section` lists all records as a call without arguments does; a
boolean `student_id` is rejected. -/
theorem getStudentList_ignores_bad_section_witness :
    getStudentList (Value.num 2) (some [("section", Value.num 7)]) =
        getStudentList (Value.num 2) (some []) ∧
    getStudentInfo (Value.num 2) (some [("student_id", Value.bool true)]) =
        { JSONRPC := "2.0", ID := Value.num 2, Result := Value.null,
          Error := some { Code := -32602, Message := "student_id is required" } } :=
  ⟨((getStudentList_ignores_bad_section (Value.num 2) (some [("section", Value.num 7)])).2.1
      (Value.num 7) (by simp [GoMap.find?, List.lookup]) (by intro s h; cases h)).1
      (some []) (by simp [GoMap.find?, List.lookup]),
    (getStudentList_ignores_bad_section (Value.num 2)
      (some [("student_id", Value.bool true)])).2.2
      (Value.bool true) (by simp [GoMap.find?, List.lookup]) (by intro s h; cases h)⟩

end StudentMCP
